import Mathlib

/-!
Shallow embedding of the vocabulary-entry model of `language_dictionary/word.py`
(class `Word`), together with the per-language configuration
(`SUPPORTED_LANGUAGES`, `ARTICLES`, `utils.replace_odd_characters`) that the
package `__init__` provides.

Python strings are modelled as Lean `String`; the handful of Python `str`
methods the source uses (`strip`, `lower`, `capitalize`, `split(sep)`,
`sep.join`, `isalpha`) are re-implemented below by structural recursion over
the character list, so that every definition evaluates inside the kernel.
Python exceptions are modelled with `Except`: each distinct raise site of the
source gets its own error constructor.
-/

namespace MyDict

/-! ### Python string primitives -/

/-- Python `str.strip()`: drop leading and trailing whitespace. -/
def pyStrip (s : String) : String :=
  String.mk (((s.data.dropWhile Char.isWhitespace).reverse.dropWhile
    Char.isWhitespace).reverse)

/-- Python `str.lower()` (ASCII letters, which is all the model needs). -/
def pyLower (s : String) : String :=
  String.mk (s.data.map Char.toLower)

/-- Python `str.capitalize()`: first character upper-cased, rest lower-cased. -/
def pyCapitalize (s : String) : String :=
  match s.data with
  | [] => ""
  | c :: cs => String.mk (Char.toUpper c :: cs.map Char.toLower)

/-- Auxiliary worker for `pySplit`, fuelled so it computes in the kernel.
The fuel is always at least `length s + 1`, which is enough for a non-empty
separator since every step consumes at least one character of `s`. -/
def splitAux (sep : List Char) : Nat → List Char → List Char → List (List Char)
  | 0, s, acc => [acc.reverse ++ s]
  | fuel + 1, s, acc =>
    match s with
    | [] => [acc.reverse]
    | c :: cs =>
      if sep.isPrefixOf (c :: cs) then
        acc.reverse :: splitAux sep fuel (List.drop sep.length (c :: cs)) []
      else
        splitAux sep fuel cs (c :: acc)

/-- Python `s.split(sep)` for a non-empty separator `sep`. -/
def pySplit (s : String) (sep : String) : List String :=
  (splitAux sep.data (s.data.length + 1) s.data []).map String.mk

/-- Python `sep.join(xs)` for a list of strings. -/
def pyJoin (sep : String) (xs : List String) : String :=
  String.intercalate sep xs

/-- Python `" ".join(s)` applied to a single STRING `s`: joining iterates the
characters of `s`, interleaving them with spaces. -/
def pyJoinChars (s : String) : String :=
  String.intercalate " " (s.data.map String.singleton)

/-- Python `s.startswith(pre)`. -/
def pyStartswith (s pre : String) : Bool :=
  pre.data.isPrefixOf s.data

/-- An apostrophe character as a one-character string. -/
def squote : String := String.singleton (Char.ofNat 39)

/-- Python `repr` of a list of simple strings, as produced when a list is
interpolated into an f-string: `[` + comma-space-joined quoted items + `]`. -/
def pyReprList (xs : List String) : String :=
  "[" ++ String.intercalate ", " (xs.map (fun s => squote ++ s ++ squote)) ++ "]"

/-! ### Per-language configuration

The package `__init__` (not part of the sources at hand) supplies the
constants below; the spec fixes their shape. -/

/-- Modelled from the spec: the fixed closed set of supported language codes
(`SUPPORTED_LANGUAGES` in the package `__init__`, absent from the sources).
The spec names German and implies at least one other language. -/
def SUPPORTED_LANGUAGES : List String := ["de", "en"]

/-- Modelled from the spec: the per-language article word-lists (`ARTICLES` in
the package `__init__`, absent from the sources). German uses der/die/das. -/
def ARTICLES (language : String) : List String :=
  if language = "de" then ["der", "die", "das"]
  else if language = "en" then ["the", "a", "an"]
  else []

/-- Modelled from the spec: `utils.replace_odd_characters` (absent from the
sources) replaces language-specific characters by sortable equivalents:
sharp s becomes "ss" and umlaut vowels become base vowel + "e". -/
def replace_odd_characters (s : String) : String :=
  String.join (s.data.map (fun c =>
    if c = Char.ofNat 0xDF then "ss"
    else if c = Char.ofNat 0xE4 then "ae"
    else if c = Char.ofNat 0xF6 then "oe"
    else if c = Char.ofNat 0xFC then "ue"
    else if c = Char.ofNat 0xC4 then "Ae"
    else if c = Char.ofNat 0xD6 then "Oe"
    else if c = Char.ofNat 0xDC then "Ue"
    else String.singleton c))

/-! ### The Word model (`language_dictionary/word.py`) -/

/-- One error constructor per distinct failure site of the source:
`languageError` for the `WordError` of `validate_language`, `parseError` for
the failed assertion of `from_line`, `tagError` for the `WordError` of
`format_tags`, `sortError` for the `WordError` of `get_sortable_word`,
`typeError` for the Python `TypeError` of iterating/joining a `None` field,
and `indexError` for `part[0]` on an empty string in `get_sortable_word`. -/
inductive WError where
  | languageError
  | parseError
  | tagError
  | sortError
  | typeError
  | indexError
deriving DecidableEq, Repr

deriving instance DecidableEq for Except

/-- `Word.WORD_TAGS`: the fixed tag vocabulary. -/
def WORD_TAGS : List String :=
  ["adj", "adv", "conj", "expr", "n", "pron", "prep", "f", "m", "nt", "pl", "v"]

/-- `Word.LINE_SEP`: the sub-field marker token. -/
def LINE_SEP : String := "<br>"

/-- The `Word` object after construction.  `meanings` is `Option` because the
source stores the `meanings` argument unchanged, and `from_line` passes
`None` for an empty meanings field; `examples` and `other` are always lists
because `__init__` replaces `None` by `[]` for them. -/
structure Word where
  language : String
  word : String
  tags : List String
  meanings : Option (List String)
  examples : List String
  other : List String
  sep : String
deriving DecidableEq, Repr

/-- `Word.process_tags`: split the raw tag string on spaces, split each
non-empty piece on dots, and collect into a set.  The source returns
`list(set)` whose order Python leaves unspecified; the model determinises it
to first-occurrence order, which is set-equal to the source's result. -/
def process_tags (tags : String) : List String :=
  (((pySplit tags " ").filter (fun t => t ≠ "")).flatMap
    (fun t => pySplit t ".")).eraseDups

/-- `Word.validate_tags`: keep only tags belonging to the fixed vocabulary. -/
def validate_tags (tags : List String) : List String :=
  tags.filter (fun tag => tag ∈ WORD_TAGS)

/-- `Word.validate_language`: lower-case the code, accept it iff the result is
a supported language, else raise `WordError`. -/
def validate_language (language : String) : Except WError String :=
  let std_language := pyLower language
  if std_language ∈ SUPPORTED_LANGUAGES then Except.ok std_language
  else Except.error WError.languageError

/-- `Word.standardize_word`.  In the noun branch the source computes
`part.capitalize()` but discards the result, so the parts are rejoined
unchanged; the model reproduces that faithfully (the membership test against
the article list has no observable effect). -/
def standardize_word (language : String) (tags : List String) (word : String) :
    String :=
  let w := pyStrip word
  if language ≠ "de" then pyLower w
  else if "n" ∈ tags then
    pyJoin " " ((pySplit w " ").map (fun part => part))
  else if "expr" ∉ tags then pyLower w
  else w

/-- `Word.__init__`: validate the language, filter the tags, standardize the
word, default `examples`/`other` to `[]` and `sep` to a tab character.
`meanings` is stored exactly as passed. -/
def Word.init (language : String) (word : String) (tags : List String)
    (meanings : Option (List String)) (examples : Option (List String))
    (other : Option (List String)) (sep : Option String) :
    Except WError Word :=
  match validate_language language with
  | Except.error e => Except.error e
  | Except.ok lang =>
    let vtags := validate_tags tags
    Except.ok
      { language := lang
        word := standardize_word lang vtags word
        tags := vtags
        meanings := meanings
        examples := examples.getD []
        other := other.getD []
        sep := sep.getD "\t" }

/-- The per-field treatment of the middle three fields in `Word.from_line`:
strip; an empty result becomes `None`, a non-empty one is split on the
sub-field marker with each piece stripped. -/
def parse_field (value : String) : Option (List String) :=
  let v := pyStrip value
  if v = "" then none
  else some ((pySplit v LINE_SEP).map pyStrip)

/-- `Word.from_line`: split the line on the separator, require exactly five
fields (the failed assertion is the `parseError`), then build the `Word`. -/
def from_line (language : String) (line : String) (sep : String) :
    Except WError Word :=
  match pySplit line sep with
  | [word, meanings, examples, other, tags] =>
    Word.init language (pyStrip word) (process_tags (pyStrip tags))
      (parse_field meanings) (parse_field examples) (parse_field other)
      (some sep)
  | _ => Except.error WError.parseError

/-- The gender/number tag markers tested by `format_tags`. -/
def GENDER_TAGS : List String := ["f", "m", "nt", "pl"]

/-- `Word.format_tags`: if any gender/number tag is present, require the noun
tag (else `WordError`), render gender/number tags as `n.<tag>` and drop the
bare noun tag; otherwise join the tags with spaces. -/
def format_tags (w : Word) : Except WError String :=
  if w.tags.any (fun tag => tag ∈ GENDER_TAGS) then
    if "n" ∉ w.tags then Except.error WError.tagError
    else Except.ok (pyJoin " " (w.tags.filterMap (fun tag =>
      if tag ∈ GENDER_TAGS then some ("n." ++ tag)
      else if tag ≠ "n" then some tag
      else none)))
  else Except.ok (pyJoin " " w.tags)

/-- `Word.format_meanings`: join the meanings with the sub-field marker; when
`meanings` is `None` the Python `join` raises a `TypeError`. -/
def format_meanings (w : Word) : Except WError String :=
  match w.meanings with
  | none => Except.error WError.typeError
  | some ms => Except.ok (pyJoin LINE_SEP ms)

/-- `Word.format_examples`. -/
def format_examples (w : Word) : String :=
  pyJoin LINE_SEP w.examples

/-- `Word.format_other`. -/
def format_other (w : Word) : String :=
  pyJoin LINE_SEP w.other

/-- `Word.__str__`: render the entry as one line.  Note that the source
interpolates `self.other` itself into the f-string (its Python list `repr`),
not `format_other()`, while `examples` goes through `format_examples()`. -/
def Word.toLine (w : Word) : Except WError String :=
  match format_meanings w with
  | Except.error e => Except.error e
  | Except.ok fm =>
    let s₁ := w.word ++ " " ++ w.sep ++ " " ++ fm ++ " " ++ w.sep
    let s₂ :=
      if w.examples ≠ [] then s₁ ++ " " ++ format_examples w ++ " " ++ w.sep
      else s₁ ++ " " ++ w.sep
    let s₃ :=
      if w.other ≠ [] then s₂ ++ " " ++ pyReprList w.other ++ " " ++ w.sep
      else s₂ ++ " " ++ w.sep
    match format_tags w with
    | Except.error e => Except.error e
    | Except.ok ft => Except.ok (s₃ ++ " " ++ ft ++ "\n")

/-- `Word.__eq__`: language, word and tags (tags compared as Python lists). -/
def Word.eq (a b : Word) : Bool :=
  a.language == b.language && a.word == b.word && a.tags == b.tags

/-- `Word.append_to_attr` on a list-valued field: split the new value on the
sub-field marker, strip each piece, and append the non-empty pieces not
already present. -/
def append_to_attr (xs : List String) (new_value : String) : List String :=
  (pySplit new_value LINE_SEP).foldl (fun acc piece =>
    let piece := pyStrip piece
    if piece ≠ "" ∧ piece ∉ acc then acc ++ [piece] else acc) xs

/-- One field of `Word.merge`: feed every non-empty value of the other entry's
list through `append_to_attr`. -/
def merge_list (xs : List String) (others : List String) : List String :=
  others.foldl (fun acc v => if v ≠ "" then append_to_attr acc v else acc) xs

/-- The meanings field of `Word.merge`: iterating a `None` meanings list of
the other entry raises `TypeError`, as does appending a non-empty value to a
`None` meanings list of the entry itself. -/
def merge_meanings (xs os : Option (List String)) :
    Except WError (Option (List String)) :=
  match os with
  | none => Except.error WError.typeError
  | some ovs =>
    ovs.foldlM (fun acc v =>
      if v ≠ "" then
        (pySplit v LINE_SEP).foldlM (fun acc piece =>
          let piece := pyStrip piece
          if piece = "" then pure acc
          else match acc with
            | none => Except.error WError.typeError
            | some l =>
              pure (some (if piece ∈ l then l else l ++ [piece]))) acc
      else pure acc) xs

/-- `Word.merge`: a no-op unless `self == other`; when equal, union the three
list fields through the append-dedup rule.  The source mutates `self`; the
model returns the updated entry. -/
def Word.merge (self other : Word) : Except WError Word :=
  if Word.eq self other then
    match merge_meanings self.meanings other.meanings with
    | Except.error e => Except.error e
    | Except.ok m =>
      Except.ok { self with
        meanings := m
        examples := merge_list self.examples other.examples
        other := merge_list self.other other.other }
  else Except.ok self

/-- The scanning loop of `get_sortable_word`: find the index of the first
space-delimited part that is not an article (case-insensitively) and starts
with an alphabetic character.  An empty stripped part that is not an article
raises `IndexError` at `part[0]`; exhausting the parts raises the
`WordError` (`sortError`). -/
def scan_parts (articles : List String) : List String → Nat → Except WError Nat
  | [], _ => Except.error WError.sortError
  | part :: rest, i =>
    let p := pyStrip part
    if pyLower p ∈ articles then scan_parts articles rest (i + 1)
    else
      match p.data with
      | [] => Except.error WError.indexError
      | c :: _ =>
        if c.isAlpha then Except.ok i
        else scan_parts articles rest (i + 1)

/-- `Word.get_sortable_word`: replace odd characters, split on spaces, scan
for the first qualifying part, and return `" ".join(split_word[i])` — the
source indexes a single part (a string), so the join interleaves the
CHARACTERS of that part with spaces. -/
def get_sortable_word (w : Word) : Except WError String :=
  let word := replace_odd_characters w.word
  let split_word := pySplit word " "
  match scan_parts (ARTICLES w.language) split_word 0 with
  | Except.error e => Except.error e
  | Except.ok i => Except.ok (pyJoinChars (split_word.getD i ""))

/-- `Word.get_initial`: the first character of the sortable word. -/
def get_initial (w : Word) : Except WError String :=
  match get_sortable_word w with
  | Except.error e => Except.error e
  | Except.ok s =>
    match s.data with
    | [] => Except.error WError.indexError
    | c :: _ => Except.ok (String.singleton c)

/-! ### Helper lemmas -/

/-- `validate_language` either returns the lower-cased code or the language
error. -/
theorem validate_language_cases (language : String) :
    validate_language language = Except.ok (pyLower language) ∨
    validate_language language = Except.error WError.languageError := by
  by_cases h : pyLower language ∈ SUPPORTED_LANGUAGES
  · exact Or.inl (by simp [validate_language, h])
  · exact Or.inr (by simp [validate_language, h])

/-- Construction never produces the parse error: its only failure site is
language validation. -/
theorem init_ne_parseError (language word : String) (tags : List String)
    (m e o : Option (List String)) (s : Option String) :
    Word.init language word tags m e o s ≠ Except.error WError.parseError := by
  rcases validate_language_cases language with h | h <;>
    simp [Word.init, h]

/-! ### Claim theorems -/

/-- C1: the serialize-then-parse round trip does NOT reconstruct the notes
("other") list: the source interpolates the Python list itself into the
output line instead of calling `format_other`, so the entry with notes
`["note"]` serializes its notes field as the repr text and re-parses to the
one-element list containing that repr.  The reconstructed entry is still
equal under the identity definition, but the lists are not set-equal. -/
theorem C1_roundtrip_other_bug :
    (do
      let w ← Word.init "de" "haus" ["n"] (some ["house"]) none (some ["note"])
        none
      let line ← Word.toLine w
      let w2 ← from_line "de" line "\t"
      pure (Word.eq w w2, w.other, w2.other)) =
    Except.ok (true, ["note"], ["[" ++ squote ++ "note" ++ squote ++ "]"]) := by
  decide

/-- C2: for the German noun headword "die Schule" the article "die" is
skipped and `get_initial` returns "S", but the sort key is NOT the
space-joined tail of parts: the source joins `split_word[i]` (one part, a
string) character by character, yielding "S c h u l e", which does not start
with "Schule". -/
theorem C2_sortable_word_bug :
    (do
      let w ← Word.init "de" "die Schule" ["n"] (some ["school"]) none none
        none
      let key ← get_sortable_word w
      let ini ← get_initial w
      pure (key, ini, pyStartswith key "Schule")) =
    Except.ok ("S c h u l e", "S", false) := by
  decide

/-- C3: for the German noun headword "die schule" the stored headword is the
unchanged "die schule": the source computes `part.capitalize()` for
non-article parts but discards the result, so no part is capitalized (the
capitalization it discards would have produced "Schule"). -/
theorem C3_noun_capitalization_bug :
    Word.init "de" "die schule" ["n"] (some ["school"]) none none none =
      Except.ok { language := "de", word := "die schule", tags := ["n"],
                  meanings := some ["school"], examples := [], other := [],
                  sep := "\t" } ∧
    pyCapitalize "schule" = "Schule" := by
  exact ⟨by decide, by decide⟩

/-- C4: parsing a line whose meanings field is empty after trimming stores
the `None` sentinel in `meanings`, not an empty list, because `__init__`
assigns the `meanings` argument unchanged; only `examples` and `other` are
defaulted to the empty list. -/
theorem C4_empty_meanings_stored_as_none :
    (from_line "de" "haus\t\t\t\tn" "\t").map
      (fun w => (w.meanings, w.examples, w.other)) =
    Except.ok (none, [], []) := by
  decide

/-- C5: a raw headword that is empty after trimming does NOT fail
construction: the entry is built successfully and stores the empty
headword. -/
theorem C5_empty_headword_accepted :
    Word.init "de" "   " ["v"] (some ["x"]) none none none =
      Except.ok { language := "de", word := "", tags := ["v"],
                  meanings := some ["x"], examples := [], other := [],
                  sep := "\t" } := by
  decide

/-- C6: parsing fails with the parse error if and only if the line does not
split into exactly five fields under the (non-empty) separator. -/
theorem C6_parse_error_iff_not_five_fields (language line sep : String)
    (_hsep : sep ≠ "") :
    from_line language line sep = Except.error WError.parseError ↔
      (pySplit line sep).length ≠ 5 := by
  rcases hs : pySplit line sep with
    _ | ⟨a, _ | ⟨b, _ | ⟨c, _ | ⟨d, _ | ⟨e, _ | ⟨f, t⟩⟩⟩⟩⟩⟩ <;>
    simp [from_line, hs, init_ne_parseError]

/-- C6 witness: a line with only three fields under the tab separator fails
with the parse error. -/
theorem C6_witness :
    ("\t" : String) ≠ "" ∧
      (from_line "de" "a\tb\tc" "\t" = Except.error WError.parseError ↔
        (pySplit "a\tb\tc" "\t").length ≠ 5) :=
  ⟨by decide, C6_parse_error_iff_not_five_fields "de" "a\tb\tc" "\t" (by decide)⟩

/-- C7: formatting the tags fails with the tag error exactly when a
gender/number tag is present without the noun tag, and succeeds for every
other entry. -/
theorem C7_format_tags_gender_requires_noun (w : Word) :
    (format_tags w = Except.error WError.tagError ↔
      (∃ t ∈ w.tags, t ∈ GENDER_TAGS) ∧ "n" ∉ w.tags) ∧
    ((format_tags w).isOk = true ↔
      ¬((∃ t ∈ w.tags, t ∈ GENDER_TAGS) ∧ "n" ∉ w.tags)) := by
  by_cases hg : ∃ t ∈ w.tags, t ∈ GENDER_TAGS <;>
    by_cases hn : "n" ∈ w.tags <;>
      simp [format_tags, hg, hn, List.any_eq_true, Except.isOk, Except.toBool]

/-- C8: the tags of every successfully constructed entry lie inside the fixed
tag vocabulary, and parsing the tag string "n xyz" yields exactly the noun
tag (the unknown tag is silently dropped). -/
theorem C8_tag_vocabulary (language word : String) (tags : List String)
    (m e o : Option (List String)) (s : Option String) (w : Word)
    (h : Word.init language word tags m e o s = Except.ok w) :
    (∀ t ∈ w.tags, t ∈ WORD_TAGS) ∧
    (from_line "de" "haus\tx\t\t\tn xyz" "\t").map Word.tags =
      Except.ok ["n"] := by
  refine ⟨?_, by decide⟩
  rcases validate_language_cases language with hv | hv <;>
    simp [Word.init, hv] at h
  intro t ht
  rw [← h] at ht
  simp only [validate_tags, List.mem_filter, decide_eq_true_eq] at ht
  exact ht.2

/-- C8 witness: construction with an unknown tag keeps only vocabulary
tags. -/
theorem C8_witness :
    (Word.init "de" "haus" ["n", "bogus"] (some ["x"]) none none none =
      Except.ok { language := "de", word := "haus", tags := ["n"],
                  meanings := some ["x"], examples := [], other := [],
                  sep := "\t" }) ∧
    ((∀ t ∈ ({ language := "de", word := "haus", tags := ["n"],
               meanings := some ["x"], examples := [], other := [],
               sep := "\t" } : Word).tags, t ∈ WORD_TAGS) ∧
      (from_line "de" "haus\tx\t\t\tn xyz" "\t").map Word.tags =
        Except.ok ["n"]) :=
  ⟨by decide,
   C8_tag_vocabulary "de" "haus" ["n", "bogus"] (some ["x"]) none none none _
     (by decide)⟩

/-- C9: merging with an entry that differs in language, headword or tags is a
no-op: the merged entry is returned unchanged. -/
theorem C9_merge_noop_on_inequality (e e2 : Word)
    (h : ¬(e.language = e2.language ∧ e.word = e2.word ∧ e.tags = e2.tags)) :
    Word.merge e e2 = Except.ok e := by
  have hb : Word.eq e e2 = false := by
    rw [Bool.eq_false_iff]
    intro hc
    refine h ?_
    simpa [Word.eq, Bool.and_eq_true, beq_iff_eq, and_assoc] using hc
  simp [Word.merge, hb]

/-- C9 witness: two entries with different headwords merge to the unchanged
first entry. -/
theorem C9_witness :
    (¬(({ language := "de", word := "haus", tags := ["n"],
          meanings := some ["x"], examples := [], other := [],
          sep := "\t" } : Word).language =
        ({ language := "de", word := "maus", tags := ["n"],
           meanings := some ["y"], examples := [], other := [],
           sep := "\t" } : Word).language ∧
       ({ language := "de", word := "haus", tags := ["n"],
          meanings := some ["x"], examples := [], other := [],
          sep := "\t" } : Word).word =
        ({ language := "de", word := "maus", tags := ["n"],
           meanings := some ["y"], examples := [], other := [],
           sep := "\t" } : Word).word ∧
       ({ language := "de", word := "haus", tags := ["n"],
          meanings := some ["x"], examples := [], other := [],
          sep := "\t" } : Word).tags =
        ({ language := "de", word := "maus", tags := ["n"],
           meanings := some ["y"], examples := [], other := [],
           sep := "\t" } : Word).tags)) ∧
    Word.merge
      { language := "de", word := "haus", tags := ["n"],
        meanings := some ["x"], examples := [], other := [], sep := "\t" }
      { language := "de", word := "maus", tags := ["n"],
        meanings := some ["y"], examples := [], other := [], sep := "\t" } =
      Except.ok
        { language := "de", word := "haus", tags := ["n"],
          meanings := some ["x"], examples := [], other := [], sep := "\t" } :=
  ⟨by decide, C9_merge_noop_on_inequality _ _ (by decide)⟩

/-- C10: language validation lower-cases the code, succeeds with the
lower-cased code exactly when it is supported, fails with the language error
exactly when it is not, and construction stores the lower-cased code. -/
theorem C10_language_case_insensitive (language word : String)
    (tags : List String) (m e o : Option (List String)) (s : Option String) :
    (validate_language language = Except.ok (pyLower language) ↔
      pyLower language ∈ SUPPORTED_LANGUAGES) ∧
    (validate_language language = Except.error WError.languageError ↔
      pyLower language ∉ SUPPORTED_LANGUAGES) ∧
    (∀ w, Word.init language word tags m e o s = Except.ok w →
      w.language = pyLower language) := by
  by_cases h : pyLower language ∈ SUPPORTED_LANGUAGES <;>
    refine ⟨by simp [validate_language, h], by simp [validate_language, h], ?_⟩ <;>
    intro w hw <;>
    simp [Word.init, validate_language, h] at hw
  rw [← hw]

/-- C10 witness: construction with the upper-cased code "DE" stores "de". -/
theorem C10_witness :
    (Word.init "DE" "Haus" ["v"] (some ["house"]) none none none =
      Except.ok { language := "de", word := "haus", tags := ["v"],
                  meanings := some ["house"], examples := [], other := [],
                  sep := "\t" }) ∧
    ({ language := "de", word := "haus", tags := ["v"],
       meanings := some ["house"], examples := [], other := [],
       sep := "\t" } : Word).language = pyLower "DE" :=
  ⟨by decide,
   (C10_language_case_insensitive "DE" "Haus" ["v"] (some ["house"]) none none
     none).2.2 _ (by decide)⟩

end MyDict
